import Mathlib

/-!
Shallow embedding of the BeatCanvas composition pipeline
(backend/app/services/openai_service.py, backend/app/services/midi_service.py,
backend/app/models.py). Python floats are modelled as rationals: every value
the claims exercise is dyadic, where float arithmetic is exact.
-/

/-- Note data, from NoteSchema in models.py. -/
structure NoteSchema where
  pitch : Int
  start_time : ℚ
  duration : ℚ
  velocity : Int
deriving DecidableEq, Repr

/-- Track data, from TrackSchema in models.py. -/
structure TrackSchema where
  name : String
  instrument : String
  midi_program : Int
  notes : List NoteSchema
deriving DecidableEq, Repr

/-- Composition metadata, from MetadataSchema in models.py. -/
structure MetadataSchema where
  tempo : Int
  bars : Int
  time_signature : List Int
  key : String
  scale : String
deriving DecidableEq, Repr

/-- Whole composition, from MusicSchema in models.py. -/
structure MusicSchema where
  metadata : MetadataSchema
  tracks : List TrackSchema
deriving DecidableEq, Repr

/-- Pydantic field constraints on a note: pitch 0..127, start_time >= 0,
duration > 0 and <= 16, velocity 0..127. -/
def validNote (n : NoteSchema) : Bool :=
  decide (0 ≤ n.pitch ∧ n.pitch ≤ 127 ∧ 0 ≤ n.start_time ∧
    0 < n.duration ∧ n.duration ≤ 16 ∧ 0 ≤ n.velocity ∧ n.velocity ≤ 127)

/-- Pydantic field constraints on a track: midi_program 0..127 and every
note valid. -/
def validTrack (t : TrackSchema) : Bool :=
  decide (0 ≤ t.midi_program ∧ t.midi_program ≤ 127) && t.notes.all validNote

/-- Key pattern from models.py: a letter A..G followed by an optional sharp
or flat mark. -/
def validKey (s : String) : Bool :=
  match s.data with
  | [c] => decide (c.toNat ≥ 65 ∧ c.toNat ≤ 71)
  | [c, m] => decide ((c.toNat ≥ 65 ∧ c.toNat ≤ 71) ∧ (m = '#' ∨ m = 'b'))
  | _ => false

/-- Pydantic field constraints on metadata: tempo 60..200, bars 4..16, key
pattern, scale a literal major or minor. -/
def validMetadata (md : MetadataSchema) : Bool :=
  decide (60 ≤ md.tempo ∧ md.tempo ≤ 200 ∧ 4 ≤ md.bars ∧ md.bars ≤ 16) &&
    validKey md.key && decide (md.scale = "major" ∨ md.scale = "minor")

/-- Pydantic constraints for the whole schema: valid metadata, a non-empty
tracks list, every track valid. MusicSchema construction in
_attempt_generation raises a ValidationError exactly when this is false. -/
def validMusic (m : MusicSchema) : Bool :=
  validMetadata m.metadata && !m.tracks.isEmpty && m.tracks.all validTrack

/-- End position of a note in beats. -/
def noteEnd (n : NoteSchema) : ℚ := n.start_time + n.duration

/-- One step of the running-max loop that computes a track length in
openai_service.py (track_max updated when note_end exceeds it). -/
def covStep (m : ℚ) (n : NoteSchema) : ℚ :=
  if noteEnd n > m then noteEnd n else m

/-- Coverage of a track: the furthest note end reached, starting from 0.0,
as computed by the loops in _extend_music_pattern and _attempt_generation. -/
def coverage (t : TrackSchema) : ℚ := t.notes.foldl covStep 0

/-- Python round: round half to even, as applied to the pattern length. -/
def pythonRound (q : ℚ) : Int :=
  let f : Int := ⌊q⌋
  let frac : ℚ := q - f
  if frac < 1 / 2 then f
  else if 1 / 2 < frac then f + 1
  else if f % 2 = 0 then f else f + 1

/-- Pattern length of a track from its coverage: rounded to the nearest bar
of 4 quarter notes, floored to one bar when rounding gives zero
(openai_service.py lines 52-54). -/
def pattern_length (cov : ℚ) : ℚ :=
  let p : Int := pythonRound (cov / 4) * 4
  if p = 0 then 4 else (p : ℚ)

/-- Repetition count: int(target / pattern_length) + 1, where Python int
truncates toward zero (both operands are positive in every call). -/
def repetitions_needed (target pl : ℚ) : Int := ⌊target / pl⌋ + 1

/-- Shift one note by an offset, keep it only when the shifted start is
before the target, clipping the duration at the target
(openai_service.py lines 66-92). -/
def shiftNote (target offset : ℚ) (n : NoteSchema) : Option NoteSchema :=
  let ns := n.start_time + offset
  let ne := ns + n.duration
  if ns < target then
    if ne > target then
      let cd := target - ns
      if cd > 0 then
        some { pitch := n.pitch, start_time := ns, duration := cd,
               velocity := n.velocity }
      else none
    else
      some { pitch := n.pitch, start_time := ns, duration := n.duration,
             velocity := n.velocity }
  else none

/-- Extension of a single track: compute its own pattern length, repeat the
notes that many times, shift and clip each copy. A track whose computed
length is not positive is kept untouched (openai_service.py lines 38-102). -/
def extendTrack (target : ℚ) (t : TrackSchema) : TrackSchema :=
  let cov := coverage t
  if cov ≤ 0 then t
  else
    let pl := pattern_length cov
    let reps := repetitions_needed target pl
    { name := t.name, instrument := t.instrument,
      midi_program := t.midi_program,
      notes := (List.range reps.toNat).flatMap
        (fun rep => t.notes.filterMap (shiftNote target (pl * (rep : ℚ)))) }

/-- Whole-composition extension, from _extend_music_pattern: each track is
extended independently; metadata is kept. The current-length argument is
unused, exactly as in the source. -/
def extend_music_pattern (m : MusicSchema) (_currentLength target : ℚ) :
    MusicSchema :=
  { m with tracks := m.tracks.map (extendTrack target) }

/-- Requested length in quarter notes: bars * 4 (openai_service.py
line 232). -/
def expectedBeats (bars : Int) : ℚ := ((bars * 4 : Int) : ℚ)

/-- Extension trigger from _attempt_generation lines 245-261: some track
has length strictly below 0.75 of the expected quarter notes. -/
def needsExtension (bars : Int) (m : MusicSchema) : Bool :=
  m.tracks.any (fun t => decide (coverage t < expectedBeats bars * (3 / 4)))

/-- Length validation and extension step of _attempt_generation lines
236-283: extend only when the trigger fires, otherwise return the
composition unchanged. -/
def validateAndExtend (bars : Int) (m : MusicSchema) : MusicSchema :=
  if needsExtension bars m then extend_music_pattern m 0 (expectedBeats bars)
  else m

/-!
Generation orchestrator, from generate_music_json and _attempt_generation.
The oracle call plus the standard-library JSON decode are external to the
repository, so each attempt is modelled by the semantic outcome they hand
the orchestrator: the call raised, the message content was empty or
missing, json.loads raised a JSONDecodeError, or the decoded object is a
candidate composition that pydantic then validates.
-/

/-- Payload of one oracle response as seen after the external decode. -/
inductive RawPayload where
  | missing : RawPayload
  | invalidJson : RawPayload
  | jsonObject : MusicSchema → RawPayload
deriving DecidableEq, Repr

/-- Outcome of one oracle call: the provider raised, or it returned a
payload. -/
inductive OracleReply where
  | exn : String → OracleReply
  | payload : RawPayload → OracleReply
deriving DecidableEq, Repr

/-- Exceptions that can escape one attempt, classified the way the retry
loop in generate_music_json classifies them: a json.JSONDecodeError, or any
other exception carrying its message. -/
inductive AttemptError where
  | jsonDecode : AttemptError
  | other : String → AttemptError
deriving DecidableEq, Repr

/-- Stand-in for the message text of the pydantic ValidationError raised
when MusicSchema construction fails; the orchestrator only ever prepends a
fixed prefix to it. -/
def validationErrorMessage : String := "validation error for MusicSchema"

/-- Single attempt, from _attempt_generation: a falsy content raises a
ValueError (a non-decode exception), a decode failure raises
JSONDecodeError, a schema-invalid object raises ValidationError (a
non-decode exception), and a valid composition is length-validated and
possibly extended before being returned. -/
def attempt_generation (bars : Int) (r : OracleReply) :
    Except AttemptError MusicSchema :=
  match r with
  | .exn msg => .error (.other msg)
  | .payload .missing => .error (.other "OpenAI returned empty response")
  | .payload .invalidJson => .error .jsonDecode
  | .payload (.jsonObject m) =>
      if validMusic m then .ok (validateAndExtend bars m)
      else .error (.other validationErrorMessage)

/-- Terminal errors of the orchestrator: the ValueError raised after the
retry budget is spent on JSON decode failures, the generic wrapper raised
for every other exception, and the unreachable fall-through ValueError at
the end of the loop. -/
inductive GenError where
  | invalidJsonAfter : Nat → GenError
  | apiError : String → GenError
  | fallthrough : Nat → GenError
deriving DecidableEq, Repr

/-- Message text of each terminal error, from the f-strings in
generate_music_json. -/
def errorMessage : GenError → String
  | .invalidJsonAfter n =>
      "OpenAI returned invalid JSON after " ++ toString n ++ " attempts"
  | .apiError msg => "OpenAI API error: " ++ msg
  | .fallthrough n =>
      "Failed to generate valid music JSON after " ++ toString n ++ " attempts"

/-- Retry loop body of generate_music_json lines 146-169, walking the
remaining oracle replies and counting oracle calls. A JSONDecodeError
advances to the next attempt unless this was the last one; every other
exception is wrapped into the generic apiError at once. -/
def genLoop (bars : Int) (total : Nat) :
    List OracleReply → Nat → Except GenError MusicSchema × Nat
  | [], calls => (.error (.fallthrough total), calls)
  | r :: rest, calls =>
      match attempt_generation bars r with
      | .ok m => (.ok m, calls + 1)
      | .error .jsonDecode =>
          match rest with
          | [] => (.error (.invalidJsonAfter total), calls + 1)
          | _ :: _ => genLoop bars total rest (calls + 1)
      | .error (.other msg) => (.error (.apiError msg), calls + 1)

/-- Orchestrator, from generate_music_json: the reply list holds one entry
per potential attempt, so its length is max_retries (default 3). Returns
the outcome together with the number of oracle calls made. -/
def generate_music_json (bars : Int) (replies : List OracleReply) :
    Except GenError MusicSchema × Nat :=
  genLoop bars replies.length replies 0

/-!
Temporal converter, from convert_json_to_midi in midi_service.py: the
declared metadata tempo fixes seconds per beat, and each note maps to
absolute start and end times.
-/

/-- Seconds per beat: 60.0 divided by the tempo (midi_service.py
line 29). -/
def seconds_per_beat (tempo : Int) : ℚ := 60 / (tempo : ℚ)

/-- Absolute start of a note in seconds (midi_service.py line 45). -/
def noteStartSeconds (tempo : Int) (n : NoteSchema) : ℚ :=
  n.start_time * seconds_per_beat tempo

/-- Absolute end of a note in seconds (midi_service.py line 46). -/
def noteEndSeconds (tempo : Int) (n : NoteSchema) : ℚ :=
  (n.start_time + n.duration) * seconds_per_beat tempo

/-!
Concrete fixtures used by the witnesses and counterexamples below.
-/

/-- Track with a single 1-beat note at beat 0: coverage 1, far below any
threshold. -/
def c1TrackA : TrackSchema := ⟨"melody", "piano", 0, [⟨60, 0, 1, 100⟩]⟩

/-- Track with one 12-beat note: coverage 12, exactly 0.75 of the 16
expected beats of a 4-bar request, so it does not trigger extension. -/
def c1TrackB : TrackSchema := ⟨"bass", "bass", 33, [⟨40, 0, 12, 90⟩]⟩

/-- Composition pairing a triggering track with a boundary non-triggering
track. -/
def c1Comp : MusicSchema :=
  ⟨⟨120, 4, [4, 4], "C", "major"⟩, [c1TrackA, c1TrackB]⟩

/-- Schema-valid composition with one track fully covering 16 beats. -/
def goodComp : MusicSchema :=
  ⟨⟨120, 4, [4, 4], "C", "major"⟩,
   [⟨"drums", "drums", 0, [⟨36, 0, 16, 100⟩]⟩]⟩

/-- Composition violating the metadata tempo range (300 is above 200). -/
def badComp : MusicSchema :=
  ⟨⟨300, 4, [4, 4], "C", "major"⟩,
   [⟨"drums", "drums", 0, [⟨36, 0, 16, 100⟩]⟩]⟩

/-- Track with a single note of duration 2 starting at beat 15. -/
def c6Track : TrackSchema := ⟨"bass", "bass", 33, [⟨40, 15, 2, 90⟩]⟩

/-- Track with a single 1-beat note at beat 0, for the tiling test. -/
def c7Track : TrackSchema := ⟨"melody", "piano", 0, [⟨60, 0, 1, 100⟩]⟩

/-- Composition whose only track has coverage exactly 12 = 0.75 of 16. -/
def c8ExactComp : MusicSchema :=
  ⟨⟨120, 4, [4, 4], "C", "major"⟩, [⟨"bass", "bass", 33, [⟨40, 0, 12, 90⟩]⟩]⟩

/-- Composition whose only track has coverage 11.9, just below the
threshold. -/
def c8BelowComp : MusicSchema :=
  ⟨⟨120, 4, [4, 4], "C", "major"⟩,
   [⟨"bass", "bass", 33, [⟨40, 0, 119 / 10, 90⟩]⟩]⟩

/-- Note at beat 2 with duration 1, the temporal-conversion test note. -/
def c9Note : NoteSchema := ⟨60, 2, 1, 100⟩

/-- Note at beat 0 with duration 1, for the monotonicity witness. -/
def c9NoteZero : NoteSchema := ⟨60, 0, 1, 100⟩

/-!
Helper lemmas about the running-max coverage loop, rounding, and the
per-note shift map.
-/

lemma le_covStep (a : ℚ) (n : NoteSchema) : a ≤ covStep a n := by
  unfold covStep
  split
  · exact le_of_lt (by assumption)
  · exact le_refl a

lemma noteEnd_le_covStep (a : ℚ) (n : NoteSchema) : noteEnd n ≤ covStep a n := by
  unfold covStep
  split
  · exact le_refl _
  · exact le_of_not_lt (by assumption)

lemma le_foldl_covStep (l : List NoteSchema) :
    ∀ a : ℚ, a ≤ l.foldl covStep a := by
  induction l with
  | nil => intro a; exact le_refl a
  | cons n t ih =>
      intro a
      rw [List.foldl_cons]
      exact le_trans (le_covStep a n) (ih _)

lemma coverage_nonneg (t : TrackSchema) : 0 ≤ coverage t :=
  le_foldl_covStep t.notes 0

lemma noteEnd_le_foldl (l : List NoteSchema) :
    ∀ (a : ℚ) (n : NoteSchema), n ∈ l → noteEnd n ≤ l.foldl covStep a := by
  induction l with
  | nil => intro a n hn; cases hn
  | cons m t ih =>
      intro a n hn
      rw [List.foldl_cons]
      rcases List.mem_cons.mp hn with h | h
      · subst h
        exact le_trans (noteEnd_le_covStep a n) (le_foldl_covStep t _)
      · exact ih _ n h

lemma noteEnd_le_coverage (t : TrackSchema) (n : NoteSchema)
    (h : n ∈ t.notes) : noteEnd n ≤ coverage t :=
  noteEnd_le_foldl t.notes 0 n h

lemma pythonRound_nonneg (q : ℚ) (h : 0 ≤ q) : 0 ≤ pythonRound q := by
  have hf : (0 : Int) ≤ ⌊q⌋ := Int.floor_nonneg.mpr h
  simp only [pythonRound]
  split_ifs <;> omega

lemma pattern_length_pos (cov : ℚ) (h : 0 ≤ cov) : 0 < pattern_length cov := by
  simp only [pattern_length]
  have h4 : (0 : ℚ) ≤ cov / 4 := by positivity
  have hr : 0 ≤ pythonRound (cov / 4) := pythonRound_nonneg _ h4
  split_ifs with hp
  · norm_num
  · have hpos : 0 < pythonRound (cov / 4) * 4 := by omega
    exact_mod_cast hpos

lemma repetitions_toNat_pos (target pl : ℚ) (ht : 0 < target) (hp : 0 < pl) :
    1 ≤ (repetitions_needed target pl).toNat := by
  unfold repetitions_needed
  have hq : (0 : ℚ) ≤ target / pl := by positivity
  have hf : (0 : Int) ≤ ⌊target / pl⌋ := Int.floor_nonneg.mpr hq
  omega

lemma shiftNote_zero (target : ℚ) (n : NoteSchema) (hd : 0 < n.duration)
    (he : noteEnd n ≤ target) : shiftNote target 0 n = some n := by
  unfold noteEnd at he
  simp only [shiftNote, add_zero]
  rw [if_pos (by linarith), if_neg (by linarith)]

lemma filterMap_shiftNote_zero (target : ℚ) (l : List NoteSchema)
    (h : ∀ n ∈ l, 0 < n.duration ∧ noteEnd n ≤ target) :
    l.filterMap (shiftNote target 0) = l := by
  induction l with
  | nil => rfl
  | cons n t ih =>
      rw [List.filterMap_cons,
        shiftNote_zero target n (h n (List.mem_cons_self n t)).1
          (h n (List.mem_cons_self n t)).2]
      rw [ih fun x hx => h x (List.mem_cons_of_mem n hx)]

lemma extendTrack_take (target : ℚ) (t : TrackSchema)
    (hd : ∀ n ∈ t.notes, 0 < n.duration)
    (hcov : coverage t ≤ target) (htpos : 0 < target) :
    (extendTrack target t).notes.take t.notes.length = t.notes := by
  simp only [extendTrack]
  split_ifs with hc
  · exact List.take_length t.notes
  · push_neg at hc
    have hplpos : 0 < pattern_length (coverage t) :=
      pattern_length_pos _ (le_of_lt hc)
    have h1 : 1 ≤ (repetitions_needed target (pattern_length (coverage t))).toNat :=
      repetitions_toNat_pos target _ htpos hplpos
    obtain ⟨k, hk⟩ :
        ∃ k, (repetitions_needed target (pattern_length (coverage t))).toNat
          = k + 1 :=
      ⟨(repetitions_needed target (pattern_length (coverage t))).toNat - 1,
        by omega⟩
    simp only [hk, List.range_succ_eq_map, List.flatMap_cons, Nat.cast_zero,
      mul_zero]
    rw [filterMap_shiftNote_zero target t.notes
      (fun n hn => ⟨hd n hn, le_trans (noteEnd_le_coverage t n hn) hcov⟩)]
    exact List.take_left t.notes _

lemma shiftNote_some_bounds (target offset : ℚ) (n1 n2 : NoteSchema)
    (hd : 0 < n1.duration) (h : shiftNote target offset n1 = some n2) :
    n2.start_time < target ∧ n2.start_time + n2.duration ≤ target ∧
      0 < n2.duration := by
  simp only [shiftNote] at h
  split_ifs at h with h1 h2 h3
  · rw [Option.some.injEq] at h
    subst h
    refine ⟨h1, ?_, ?_⟩
    · show n1.start_time + offset + (target - (n1.start_time + offset)) ≤ target
      linarith
    · show 0 < target - (n1.start_time + offset)
      exact h3
  · rw [Option.some.injEq] at h
    subst h
    refine ⟨h1, ?_, ?_⟩
    · show n1.start_time + offset + n1.duration ≤ target
      exact le_of_not_lt h2
    · exact hd

/-!
Claim theorems.
-/

/-- Claim C1, counterexample: the second track of c1Comp, the track
c1TrackB, has coverage exactly 0.75 of the 16 expected beats, so it does
not itself trigger extension, yet after the Length Validator and Extender
runs (triggered by the first track) the note list in the second output
slot, the slot of c1TrackB, is the original list plus a clipped shifted
copy at beat 12, and in particular is not the note list c1TrackB had
before: the claim that every non-triggering track is returned verbatim is
false. -/
theorem C1_counterexample :
    needsExtension 4 c1Comp = true ∧
    ¬ (coverage c1TrackB < expectedBeats 4 * (3 / 4)) ∧
    c1Comp.tracks.get? 1 = some c1TrackB ∧
    ((validateAndExtend 4 c1Comp).tracks.map TrackSchema.notes).get? 1 =
      some (c1TrackB.notes ++
        [{ pitch := 40, start_time := 12, duration := 4, velocity := 90 }]) ∧
    ((validateAndExtend 4 c1Comp).tracks.map TrackSchema.notes).get? 1 ≠
      some c1TrackB.notes := by
  with_unfolding_all decide

/-- Claim C1 as amended: when extension is triggered, the extender re-tiles
every track, non-triggering tracks included; a non-triggering track whose
coverage does not exceed expectedBeats keeps its original notes only as the
initial segment of its new note list and may gain further shifted copies,
so it is not returned verbatim in general: the boundary track c1TrackB
gains a clipped copy at beat 12 and so differs from its input. Only a track
with no notes is always left untouched. -/
theorem C1_extension_retiles_every_track (bars : Int) (m : MusicSchema)
    (t : TrackSchema) (htrig : needsExtension bars m = true)
    (hd : ∀ n ∈ t.notes, 0 < n.duration)
    (hcov : coverage t ≤ expectedBeats bars) :
    ((validateAndExtend bars m).tracks =
      m.tracks.map (extendTrack (expectedBeats bars))) ∧
    ((extendTrack (expectedBeats bars) t).notes.take t.notes.length =
      t.notes) ∧
    (∀ (target : ℚ) (u : TrackSchema), u.notes = [] →
      extendTrack target u = u) ∧
    ((extendTrack (expectedBeats 4) c1TrackB).notes =
      c1TrackB.notes ++
        [{ pitch := 40, start_time := 12, duration := 4, velocity := 90 }]) ∧
    (extendTrack (expectedBeats 4) c1TrackB).notes ≠ c1TrackB.notes := by
  have htpos : 0 < expectedBeats bars := by
    simp only [needsExtension, List.any_eq_true] at htrig
    obtain ⟨u, hu, hlt⟩ := htrig
    rw [decide_eq_true_eq] at hlt
    have := coverage_nonneg u
    linarith
  refine ⟨?_, ?_, ?_, ?_, ?_⟩
  · unfold validateAndExtend
    rw [if_pos htrig]
    rfl
  · exact extendTrack_take _ t hd hcov htpos
  · intro target u hu
    have hc : coverage u = 0 := by simp [coverage, hu]
    simp [extendTrack, hc]
  · with_unfolding_all decide
  · with_unfolding_all decide

/-- Claim C1, witness: the amended theorem applied to the concrete
composition of the counterexample. -/
theorem C1_witness :
    needsExtension 4 c1Comp = true ∧
    (∀ n ∈ c1TrackB.notes, 0 < n.duration) ∧
    coverage c1TrackB ≤ expectedBeats 4 ∧
    (((validateAndExtend 4 c1Comp).tracks =
        c1Comp.tracks.map (extendTrack (expectedBeats 4))) ∧
      ((extendTrack (expectedBeats 4) c1TrackB).notes.take
          c1TrackB.notes.length = c1TrackB.notes) ∧
      (∀ (target : ℚ) (u : TrackSchema), u.notes = [] →
        extendTrack target u = u) ∧
      ((extendTrack (expectedBeats 4) c1TrackB).notes =
        c1TrackB.notes ++
          [{ pitch := 40, start_time := 12, duration := 4,
             velocity := 90 }]) ∧
      (extendTrack (expectedBeats 4) c1TrackB).notes ≠ c1TrackB.notes) :=
  ⟨by with_unfolding_all decide, by with_unfolding_all decide,
    by with_unfolding_all decide,
    C1_extension_retiles_every_track 4 c1Comp c1TrackB
      (by with_unfolding_all decide) (by with_unfolding_all decide)
      (by with_unfolding_all decide)⟩

/-- Claim C2, counterexample: with an empty payload on the first attempt
and two further attempts available that would both succeed, the
orchestrator stops after exactly one oracle call with the generic wrapped
error; it does not advance to the next attempt, so an empty payload is not
treated as a retryable decode failure. -/
theorem C2_counterexample :
    generate_music_json 4
      [.payload .missing, .payload (.jsonObject goodComp),
        .payload (.jsonObject goodComp)] =
      (.error (.apiError "OpenAI returned empty response"), 1) ∧
    generate_music_json 4 [.payload (.jsonObject goodComp)] =
      (.ok goodComp, 1) :=
  ⟨rfl, by with_unfolding_all rfl⟩

/-- Claim C2 as amended: an empty or missing payload raises a ValueError,
which the orchestrator wraps as a terminal generic error with the prefix
for provider failures after exactly one oracle call, regardless of how many
attempts remain; it is never retried. -/
theorem C2_empty_payload_terminal (bars : Int) (rest : List OracleReply) :
    generate_music_json bars (.payload .missing :: rest) =
      (.error (.apiError "OpenAI returned empty response"), 1) ∧
    errorMessage (.apiError "OpenAI returned empty response") =
      "OpenAI API error: OpenAI returned empty response" :=
  ⟨rfl, rfl⟩

/-- Claim C3: a payload that parses but violates the composition schema on
the first attempt terminates the orchestrator after exactly one oracle
call, whatever the remaining attempts hold, with the generic terminal
error; the schema violation is never retried. -/
theorem C3_schema_violation_short_circuits (bars : Int) (m : MusicSchema)
    (rest : List OracleReply) (hinvalid : validMusic m = false) :
    generate_music_json bars (.payload (.jsonObject m) :: rest) =
      (.error (.apiError validationErrorMessage), 1) := by
  simp [generate_music_json, genLoop, attempt_generation, hinvalid]

/-- Claim C3, witness: the schema-invalid composition with tempo 300 on the
first of three attempts, the remaining two holding payloads that would
succeed. -/
theorem C3_witness :
    validMusic badComp = false ∧
    generate_music_json 4
      [.payload (.jsonObject badComp), .payload (.jsonObject goodComp),
        .payload (.jsonObject goodComp)] =
      (.error (.apiError validationErrorMessage), 1) :=
  ⟨by with_unfolding_all decide,
    C3_schema_violation_short_circuits 4 badComp _
      (by with_unfolding_all decide)⟩

lemma genLoop_all_invalid (bars : Int) (total : Nat) :
    ∀ (l : List OracleReply) (calls : Nat), l ≠ [] →
      (∀ r ∈ l, r = .payload .invalidJson) →
      genLoop bars total l calls =
        (.error (.invalidJsonAfter total), calls + l.length) := by
  intro l
  induction l with
  | nil => intro calls hne _; exact absurd rfl hne
  | cons r rest ih =>
      intro calls _ hall
      have hr : r = .payload .invalidJson := hall r (List.mem_cons_self r rest)
      subst hr
      cases rest with
      | nil => simp [genLoop, attempt_generation]
      | cons x xs =>
          rw [show genLoop bars total
              (OracleReply.payload RawPayload.invalidJson :: x :: xs) calls =
              genLoop bars total (x :: xs) (calls + 1) from rfl]
          rw [ih (calls + 1) (by simp)
            (fun r2 hr2 => hall r2 (List.mem_cons_of_mem _ hr2))]
          have harith : calls + 1 + (x :: xs).length =
              calls +
                (OracleReply.payload RawPayload.invalidJson :: x :: xs).length := by
            simp only [List.length_cons]
            omega
          rw [harith]

/-- Claim C4: when every payload fails JSON decoding, the orchestrator
makes exactly one oracle call per allowed attempt and then fails with the
terminal invalid-JSON error naming the attempt count, never with a
schema-violation error. -/
theorem C4_retry_exhaustion (bars : Int) (replies : List OracleReply)
    (hne : replies ≠ [])
    (hall : ∀ r ∈ replies, r = .payload .invalidJson) :
    generate_music_json bars replies =
      (.error (.invalidJsonAfter replies.length), replies.length) := by
  have h := genLoop_all_invalid bars replies.length replies 0 hne hall
  simpa using h

/-- Claim C4, witness: the default three attempts, all returning
unparseable payloads, give exactly three calls and the invalid-JSON
terminal error. -/
theorem C4_witness :
    ([OracleReply.payload .invalidJson, .payload .invalidJson,
        .payload .invalidJson] ≠ ([] : List OracleReply)) ∧
    generate_music_json 4
      [.payload .invalidJson, .payload .invalidJson,
        .payload .invalidJson] =
      (.error (.invalidJsonAfter 3), 3) :=
  ⟨by decide, C4_retry_exhaustion 4 _ (by decide) (by decide)⟩

/-- Claim C5: a composition whose every track already covers the expected
beats never enters the extension branch: the Length Validator and Extender
returns it unchanged, and re-applying it is idempotent. -/
theorem C5_sufficient_composition_unchanged (bars : Int) (m : MusicSchema)
    (hbars : 0 ≤ bars)
    (hcov : ∀ t ∈ m.tracks, expectedBeats bars ≤ coverage t) :
    validateAndExtend bars m = m ∧
    validateAndExtend bars (validateAndExtend bars m) = m := by
  have he : (0 : ℚ) ≤ expectedBeats bars := by
    unfold expectedBeats
    have h4 : (0 : Int) ≤ bars * 4 := by omega
    exact_mod_cast h4
  have hfalse : needsExtension bars m = false := by
    rw [Bool.eq_false_iff]
    rw [Ne, needsExtension, List.any_eq_true]
    rintro ⟨t, ht, hlt⟩
    rw [decide_eq_true_eq] at hlt
    have h1 := hcov t ht
    linarith
  simp [validateAndExtend, hfalse]

/-- Claim C5, witness: a composition with one track covering all 16
expected beats of a 4-bar request is returned unchanged twice over. -/
theorem C5_witness :
    ((0 : Int) ≤ 4) ∧
    (∀ t ∈ goodComp.tracks, expectedBeats 4 ≤ coverage t) ∧
    (validateAndExtend 4 goodComp = goodComp ∧
      validateAndExtend 4 (validateAndExtend 4 goodComp) = goodComp) :=
  ⟨by decide, by with_unfolding_all decide,
    C5_sufficient_composition_unchanged 4 goodComp (by decide)
      (by with_unfolding_all decide)⟩

/-- Claim C6: every note the extender emits for a track of valid notes lies
within the target: its start is strictly before the target, its end does
not exceed the target, and its duration stays positive; copies starting at
or past the target are gone. -/
theorem C6_extension_output_within_target (target : ℚ) (t : TrackSchema)
    (hvalid : ∀ n ∈ t.notes, 0 < n.duration ∧ 0 ≤ n.start_time) :
    ∀ n ∈ (extendTrack target t).notes,
      n.start_time < target ∧ n.start_time + n.duration ≤ target ∧
        0 < n.duration := by
  intro n hn
  simp only [extendTrack] at hn
  split_ifs at hn with hc
  · exfalso
    have h1 := noteEnd_le_coverage t n hn
    have h2 := (hvalid n hn).1
    have h3 := (hvalid n hn).2
    have h4 : 0 < noteEnd n := by unfold noteEnd; linarith
    linarith
  · simp only [List.mem_flatMap, List.mem_filterMap] at hn
    obtain ⟨rep, _, n1, hn1, hshift⟩ := hn
    exact shiftNote_some_bounds target _ n1 n (hvalid n1 hn1).1 hshift

/-- Claim C6, witness: the track with a single note of duration 2 starting
at beat 15 extends, with target 16, to exactly one note at beat 15 with
duration clipped to 1, and every emitted note satisfies the bounds. -/
theorem C6_witness :
    ((extendTrack 16 c6Track).notes =
      [{ pitch := 40, start_time := 15, duration := 1, velocity := 90 }]) ∧
    (∀ n ∈ c6Track.notes, 0 < n.duration ∧ 0 ≤ n.start_time) ∧
    (∀ n ∈ (extendTrack 16 c6Track).notes,
      n.start_time < 16 ∧ n.start_time + n.duration ≤ 16 ∧
        0 < n.duration) :=
  ⟨by with_unfolding_all decide, by with_unfolding_all decide,
    C6_extension_output_within_target 16 c6Track
      (by with_unfolding_all decide)⟩

/-- Claim C7: a track with a single 1-beat note at beat 0 and target 16 has
pattern length 4 (coverage 1 rounds to 0 and is floored to one measure),
repetition count 5, and extends to exactly four notes at beats 0, 4, 8 and
12, each of duration 1 with the original pitch and velocity; the fifth copy
at beat 16 is discarded. -/
theorem C7_single_note_tiling :
    pattern_length (coverage c7Track) = 4 ∧
    repetitions_needed 16 (pattern_length (coverage c7Track)) = 5 ∧
    (extendTrack 16 c7Track).notes =
      [⟨60, 0, 1, 100⟩, ⟨60, 4, 1, 100⟩, ⟨60, 8, 1, 100⟩,
        ⟨60, 12, 1, 100⟩] := by
  with_unfolding_all decide

/-- Claim C8: the extension trigger fires exactly when some track has
coverage strictly below 0.75 of the expected beats; a track at exactly the
threshold does not fire it, one just below does. -/
theorem C8_trigger_strict_threshold :
    (∀ (bars : Int) (m : MusicSchema),
      needsExtension bars m = true ↔
        ∃ t ∈ m.tracks, coverage t < expectedBeats bars * (3 / 4)) ∧
    needsExtension 4 c8ExactComp = false ∧
    needsExtension 4 c8BelowComp = true := by
  refine ⟨?_, by with_unfolding_all decide, by with_unfolding_all decide⟩
  intro bars m
  simp [needsExtension]

/-- Claim C9: the temporal converter maps a note by seconds per beat equal
to 60 over the declared tempo, start and end scale by that factor, the map
is monotone in the start beat for positive tempo, and at tempo 120 the note
at beat 2 with duration 1 maps to start 1 and end 1.5 seconds. -/
theorem C9_temporal_conversion (tempo : Int) (n n2 : NoteSchema)
    (htempo : 0 < tempo) (hmono : n.start_time ≤ n2.start_time) :
    noteStartSeconds tempo n = n.start_time * (60 / (tempo : ℚ)) ∧
    noteEndSeconds tempo n =
      (n.start_time + n.duration) * (60 / (tempo : ℚ)) ∧
    noteStartSeconds tempo n ≤ noteStartSeconds tempo n2 ∧
    seconds_per_beat 120 = 1 / 2 ∧
    noteStartSeconds 120 c9Note = 1 ∧
    noteEndSeconds 120 c9Note = 3 / 2 := by
  refine ⟨rfl, rfl, ?_, by with_unfolding_all decide,
    by with_unfolding_all decide, by with_unfolding_all decide⟩
  unfold noteStartSeconds seconds_per_beat
  have hc : (0 : ℚ) < (tempo : ℚ) := by exact_mod_cast htempo
  have hs : (0 : ℚ) ≤ 60 / (tempo : ℚ) := by positivity
  exact mul_le_mul_of_nonneg_right hmono hs

/-- Claim C9, witness: the conversion theorem applied at tempo 120 to the
note at beat 0 and the note at beat 2. -/
theorem C9_witness :
    ((0 : Int) < 120) ∧
    (c9NoteZero.start_time ≤ c9Note.start_time) ∧
    (noteStartSeconds 120 c9NoteZero =
        c9NoteZero.start_time * (60 / (120 : ℚ)) ∧
      noteEndSeconds 120 c9NoteZero =
        (c9NoteZero.start_time + c9NoteZero.duration) * (60 / (120 : ℚ)) ∧
      noteStartSeconds 120 c9NoteZero ≤ noteStartSeconds 120 c9Note ∧
      seconds_per_beat 120 = 1 / 2 ∧
      noteStartSeconds 120 c9Note = 1 ∧
      noteEndSeconds 120 c9Note = 3 / 2) :=
  ⟨by decide, by with_unfolding_all decide,
    C9_temporal_conversion 120 c9NoteZero c9Note (by decide)
      (by with_unfolding_all decide)⟩

/-- Claim C10: every attempt failure other than a JSON decode error, the
provider call raising, an empty payload, and a schema violation included,
surfaces after exactly one oracle call as the same generic error whose
message starts with the fixed provider prefix, so a caller cannot tell
these apart by error kind or prefix. -/
theorem C10_non_decode_failures_generic_terminal (bars : Int)
    (rest : List OracleReply) (msg : String) (m : MusicSchema)
    (hinvalid : validMusic m = false) :
    generate_music_json bars (.exn msg :: rest) =
      (.error (.apiError msg), 1) ∧
    generate_music_json bars (.payload .missing :: rest) =
      (.error (.apiError "OpenAI returned empty response"), 1) ∧
    generate_music_json bars (.payload (.jsonObject m) :: rest) =
      (.error (.apiError validationErrorMessage), 1) ∧
    (∀ s, errorMessage (.apiError s) =
      String.append "OpenAI API error: " s) := by
  refine ⟨rfl, rfl, ?_, fun s => rfl⟩
  simp [generate_music_json, genLoop, attempt_generation, hinvalid]

/-- Claim C10, witness: the classification theorem applied to a provider
exception, an empty payload, and the schema-invalid composition with tempo
300, each as a sole attempt. -/
theorem C10_witness :
    validMusic badComp = false ∧
    (generate_music_json 4 [.exn "boom"] =
        (.error (.apiError "boom"), 1) ∧
      generate_music_json 4 [.payload .missing] =
        (.error (.apiError "OpenAI returned empty response"), 1) ∧
      generate_music_json 4 [.payload (.jsonObject badComp)] =
        (.error (.apiError validationErrorMessage), 1) ∧
      (∀ s, errorMessage (.apiError s) =
        String.append "OpenAI API error: " s)) :=
  ⟨by with_unfolding_all decide,
    C10_non_decode_failures_generic_terminal 4 [] "boom" badComp
      (by with_unfolding_all decide)⟩
